import Mathlib

set_option maxRecDepth 8192

/-
  Shallow embedding of the CAN chat protocol layer of canChat/mega/mega.ino.

  The program multiplexes chat messages and LED commands over one 11-bit CAN
  identifier.  Machine integers are modelled as Nat with explicit reduction
  modulo 2 ^ w at the points where the C types truncate: byte is 8 bits,
  unsigned int is 16 bits on the AVR Mega, unsigned long is 32 bits.
  A C string is modelled as the list of its bytes up to (not including) the
  terminator, so strlen corresponds to List.length.
-/

namespace CanChat

/-! ### Constants and enumerations (mega.ino lines 42-99) -/

/-- Device enum: Arduino Uno. -/
def UNO : Nat := 0

/-- Device enum: Arduino Mega. -/
def MEGA : Nat := 1

/-- Zero enum: no member (all identity bits clear). -/
def NONE : Nat := 0

/-- Zero enum: Joel Zamora, bit 0. -/
def JZ : Nat := 1

/-- Zero enum: Richard Hemphill, bit 1. -/
def RH : Nat := 2

/-- Zero enum: William Mckinnon, bit 2. -/
def WM : Nat := 4

/-- Zero enum: Eric Hansen, bit 3. -/
def EH : Nat := 8

/-- Zero enum: Daniel Caballero, bit 4. -/
def DC : Nat := 16

/-- The five valid (nonzero) member identities. -/
def zeroMembers : List Nat := [JZ, RH, WM, EH, DC]

/-- CAN_ID_CHAT (line 89): mask 0x3ff used when building a chat id. -/
def CAN_ID_CHAT : Nat := 0x3ff

/-- CAN_SRC_SHIFT (line 90): bits to shift a Zero member into the source field. -/
def CAN_SRC_SHIFT : Nat := 5

/-- CAN_CHAT_MASK (line 91): mask 0x400 extracting the chat indication bit. -/
def CAN_CHAT_MASK : Nat := 0x400

/-- CAN_ZERO_MASK (line 92): mask B11111 extracting the team bits. -/
def CAN_ZERO_MASK : Nat := 0x1f

/-- CAN_DEVICE_CMD (line 93): fixed id 0x400 for commanding a device. -/
def CAN_DEVICE_CMD : Nat := 0x400

/-- MY_DEVICE (line 94): this board is the Mega. -/
def MY_DEVICE : Nat := MEGA

/-- DEVICE_TO_COMMAND (line 96): LED commands are addressed to the Uno. -/
def DEVICE_TO_COMMAND : Nat := UNO

/-- DEV_INDEX (line 98): index into the data field holding the target device. -/
def DEV_INDEX : Nat := 0

/-- VAL_INDEX (line 99): index into the data field holding the commanded value. -/
def VAL_INDEX : Nat := 1

/-- CAN_MAX_CHAR_IN_MESSAGE: maximum data length of one frame.  The constant
comes from the external CAN transport library; the spec fixes the maximum
frame payload at 8 bytes. -/
def CAN_MAX_CHAR_IN_MESSAGE : Nat := 8

/-! ### Frames and session state -/

/-- One transmitted CAN frame: identifier, data length and data bytes, as
passed to the transport send call. -/
structure Frame where
  id : Nat
  len : Nat
  data : List Nat
deriving DecidableEq, Repr

/-- The mutable globals read and written by the send paths (lines 130-132):
the local member identity me (a Zero value), the bit-packed destination set
(a byte), and lastId (an unsigned int, 16 bits on the AVR). -/
structure Session where
  me : Nat
  destination : Nat
  lastId : Nat
deriving DecidableEq, Repr

/-! ### Frame codec and dispatch -/

/-- The id computation of sendCanMsg (lines 270-273): start from 0, AND with
CAN_ID_CHAT, OR in the sender shifted into the source field, OR in the
destination bits. -/
def chatId (me destination : Nat) : Nat :=
  ((0 &&& CAN_ID_CHAT) ||| (me <<< CAN_SRC_SHIFT)) ||| destination

/-- sendCanMsg (lines 260-289), as a function from the session globals and the
chat text to the new session state and the list of frames handed to the
transport, in order.  The length is stored in a byte, so it is strlen mod 256;
messages whose stored length exceeds CAN_MAX_CHAR_IN_MESSAGE are reported and
dropped with nothing sent.  When the computed id differs from lastId an
empty priming frame with the new id is sent first and lastId is updated
(truncated to the 16-bit unsigned int holding it). -/
def sendCanMsg (s : Session) (msg : List Nat) : Session × List Frame :=
  let len := msg.length % 256
  if CAN_MAX_CHAR_IN_MESSAGE < len then
    (s, [])
  else
    let id := chatId s.me s.destination
    if s.lastId ≠ id then
      ({ s with lastId := id % 2 ^ 16 }, [⟨id, 0, []⟩, ⟨id, len, msg.take len⟩])
    else
      (s, [⟨id, len, msg.take len⟩])

/-- canLedCmdSender (lines 297-321): sends the two data bytes
[DEVICE_TO_COMMAND, ledVal] (each cast to a byte) under the fixed id
CAN_DEVICE_CMD, with the same priming-frame logic as the chat path. -/
def canLedCmdSender (s : Session) (ledVal : Nat) : Session × List Frame :=
  let data := [DEVICE_TO_COMMAND % 256, ledVal % 256]
  let id := CAN_DEVICE_CMD
  if s.lastId ≠ id then
    ({ s with lastId := id % 2 ^ 16 }, [⟨id, 0, []⟩, ⟨id, 2, data⟩])
  else
    (s, [⟨id, 2, data⟩])

/-- The outputs of isChat: its return value and the two values written through
its sender and forMe out-parameters. -/
structure IsChatResult where
  ret : Bool
  sender : Nat
  forMe : Bool
deriving DecidableEq, Repr

/-- isChat (lines 357-366).  The id parameter is an unsigned long, so the
function sees its value modulo 2 ^ 32; chat is true when the complemented id
has the CAN_CHAT_MASK bit set (i.e. the chat bit of id is clear); the source
and destination fields are the masked shifts; the frame counts as chat only
when the source field is nonzero.  me is the local identity global. -/
def isChat (me id : Nat) : IsChatResult :=
  let idv := id % 2 ^ 32
  let chat : Bool := decide (0 < ((idv ^^^ (2 ^ 32 - 1)) &&& CAN_CHAT_MASK))
  let src := (idv >>> CAN_SRC_SHIFT) &&& CAN_ZERO_MASK
  let dst := idv &&& CAN_ZERO_MASK
  { ret := chat && decide (0 < src)
    sender := src
    forMe := decide (0 < (dst &&& me)) }

/-- isMyLed (lines 376-383): with fewer than VAL_INDEX + 1 data bytes it
returns false (the out-parameter is then never read by the caller; it is
modelled as 0); otherwise it loads data[VAL_INDEX] and reports whether
data[DEV_INDEX] is this board. -/
def isMyLed (len : Nat) (data : List Nat) : Bool × Nat :=
  if len < VAL_INDEX + 1 then
    (false, 0)
  else
    (decide (data.getD DEV_INDEX 0 = MY_DEVICE), data.getD VAL_INDEX 0)

/-- processLedCmd (lines 394-400): the value written to the local LED, or none
when the command does not apply to this board. -/
def processLedCmd (len : Nat) (data : List Nat) : Option Nat :=
  let r := isMyLed len data
  if r.1 then some r.2 else none

/-- The observable routing decision of processCanPacket. -/
inductive PacketAction where
  | chatShown (sender : Nat) (len : Nat) (data : List Nat)
  | chatIgnored
  | cmdProcessed (led : Option Nat)
deriving DecidableEq, Repr

/-- processCanPacket (lines 410-424): a frame classified as chat is displayed
when forMe holds and otherwise ignored; every other frame goes to the LED
command handler. -/
def processCanPacket (me id len : Nat) (data : List Nat) : PacketAction :=
  let r := isChat me id
  if r.ret then
    if r.forMe then .chatShown r.sender len data else .chatIgnored
  else
    .cmdProcessed (processLedCmd len data)

/-! ### Setup prompts -/

/-- numMembers as computed in setupUser (lines 558-564): member is
post-incremented five times from 1, then numMembers = member - 1 = 5. -/
def setupUserNumMembers : Nat := 5

/-- The acceptance condition of the setupUser input loop (line 566): the loop
re-prompts while member <= 0 or member >= numMembers, so an input is accepted
exactly when that condition is false.  atoi yields an int, modelled as Int. -/
def setupUserAccepts (member : Int) : Bool :=
  !(decide (member ≤ 0) || decide ((setupUserNumMembers : Int) ≤ member))

/-- The switch of setupUser (lines 576-600) mapping the selected number to the
identity stored in me, with NONE as the default. -/
def setupUserIdentity (member : Int) : Nat :=
  if member = 1 then JZ
  else if member = 2 then RH
  else if member = 3 then WM
  else if member = 4 then EH
  else if member = 5 then DC
  else NONE

/-- allMembers as computed in setupTargets (lines 614-620): member is
post-incremented six times from 1 (five names plus Everyone), then
allMembers = member - 1 = 6. -/
def setupTargetsAllMembers : Nat := 6

/-- destination after the broadcast branch of setupTargets (lines 638-642):
destination = CAN_ZERO_MASK, then destination &= ~me, the complement taken at
the 16-bit int width. -/
def broadcastMinusSelf (me : Nat) : Nat :=
  CAN_ZERO_MASK &&& ((2 ^ 16 - 1) ^^^ (me % 2 ^ 16))

/-- The effect of one numeric input in the setupTargets selection loop. -/
inductive TargetStep where
  | broadcastSel (newDest : Nat)
  | addMember (newDest : Nat)
  | rejected
deriving DecidableEq, Repr

/-- Whether a setupTargets step hit the out-of-range rejection branch. -/
def TargetStep.isRejected : TargetStep → Bool
  | .rejected => true
  | _ => false

/-- One iteration of the setupTargets selection loop (lines 636-648) on a
numeric input: member == allMembers selects broadcast-minus-self; otherwise,
when member > 0 or member < allMembers, the bit 1U << (member - 1) is ORed
into the destination byte (the shift is at the 16-bit unsigned int width and
the store truncates to a byte; for member <= 0 the C shift is undefined and
the model wraps); otherwise the input is rejected with the invalid-selection
notification. -/
def setupTargetsStep (me dest : Nat) (member : Int) : TargetStep :=
  if member = (setupTargetsAllMembers : Int) then
    .broadcastSel (broadcastMinusSelf me)
  else if decide (0 < member) || decide (member < (setupTargetsAllMembers : Int)) then
    .addMember ((dest ||| ((1 <<< (member - 1).toNat) % 2 ^ 16)) % 256)
  else
    .rejected

/-! ### Send operations as a transition system (for the priming invariant) -/

/-- A transmit request: a chat text entered over serial, or an LED command
triggered by the push button. -/
inductive Op where
  | chat (msg : List Nat)
  | ledCmd (ledVal : Nat)

/-- One send operation acting on the session globals. -/
def step (s : Session) : Op → Session × List Frame
  | .chat msg => sendCanMsg s msg
  | .ledCmd v => canLedCmdSender s v

/-- The data-frame identifier an operation computes from the session. -/
def opDataId (s : Session) : Op → Nat
  | .chat _ => chatId s.me s.destination
  | .ledCmd _ => CAN_DEVICE_CMD

/-- Run a sequence of send operations, collecting all transmitted frames. -/
def runOps (s : Session) : List Op → Session × List Frame
  | [] => (s, [])
  | op :: ops =>
      let r := step s op
      let r2 := runOps r.1 ops
      (r2.1, r.2 ++ r2.2)

/-! ### Helper lemmas -/

/-- Decidability of a bounded universal over Nat with a non-dependent body,
packaged so the instance can be supplied explicitly. -/
def decBall (n : Nat) (P : Nat → Prop) (H : (i : Nat) → Decidable (P i)) :
    Decidable (∀ i, i < n → P i) :=
  @Nat.decidableBallLT n (fun i _ => P i) (fun i _ => H i)

lemma mem_zeroMembers_bounds : ∀ i ∈ zeroMembers, 0 < i ∧ i < 32 := by decide

lemma chatId_fields : ∀ i, i < 32 → ∀ r, r < 32 →
    (chatId i r >>> CAN_SRC_SHIFT) &&& CAN_ZERO_MASK = i
    ∧ chatId i r &&& CAN_ZERO_MASK = r
    ∧ chatId i r < 1024 :=
  @of_decide_eq_true _
    (decBall 32 _ fun _ => decBall 32 _ fun _ => inferInstance) rfl

lemma chatId_lt : ∀ i, i < 32 → ∀ r, r < 256 → chatId i r < 1024 :=
  @of_decide_eq_true _
    (decBall 32 _ fun _ => decBall 256 _ fun _ => inferInstance) rfl

lemma chat_bit_small : ∀ id, id < 1024 →
    ((id ^^^ (2 ^ 32 - 1)) &&& CAN_CHAT_MASK) = CAN_CHAT_MASK :=
  @of_decide_eq_true _ (decBall 1024 _ fun _ => inferInstance) rfl

lemma lt_two_pow_32 (id : Nat) (h : id < 1024) : id < 2 ^ 32 :=
  lt_trans h (by norm_num)

/-- On an identifier below 1024 (chat bit clear), isChat reduces to the field
extractions. -/
lemma isChat_small (me id : Nat) (h : id < 1024) :
    (isChat me id).ret = decide (0 < ((id >>> CAN_SRC_SHIFT) &&& CAN_ZERO_MASK))
    ∧ (isChat me id).sender = (id >>> CAN_SRC_SHIFT) &&& CAN_ZERO_MASK
    ∧ (isChat me id).forMe = decide (0 < ((id &&& CAN_ZERO_MASK) &&& me)) := by
  have hm : id % 2 ^ 32 = id := Nat.mod_eq_of_lt (lt_two_pow_32 id h)
  have hc := chat_bit_small id h
  unfold isChat
  rw [hm]
  dsimp only
  rw [hc]
  simp [CAN_CHAT_MASK]

/-! ### Claim theorems -/

/-- C2: the chat send path builds the 11-bit identifier with the kind bit
(0x400) clear, the sender identity in bits 5-9 (shifted left by 5) and the
recipient-set bits in bits 0-4; for sender RH (0x02) and recipients
WM ||| EH (0x0C) the id has kind bit clear, sender field 0x02 and recipient
field 0x0C. -/
theorem C2_chat_id_layout :
    (∀ i, i < 32 → ∀ r, r < 32 →
        chatId i r &&& CAN_CHAT_MASK = 0
        ∧ (chatId i r >>> CAN_SRC_SHIFT) &&& CAN_ZERO_MASK = i
        ∧ chatId i r &&& CAN_ZERO_MASK = r)
    ∧ chatId RH (WM ||| EH) &&& CAN_CHAT_MASK = 0
    ∧ (chatId RH (WM ||| EH) >>> CAN_SRC_SHIFT) &&& CAN_ZERO_MASK = 0x02
    ∧ chatId RH (WM ||| EH) &&& CAN_ZERO_MASK = 0x0C :=
  ⟨@of_decide_eq_true _
      (decBall 32 _ fun _ => decBall 32 _ fun _ => inferInstance) rfl,
   by decide, by decide, by decide⟩

/-- Witness for C2 at sender RH and recipient set 0x0C. -/
theorem C2_chat_id_layout_witness :
    chatId RH 0x0C &&& CAN_CHAT_MASK = 0
    ∧ (chatId RH 0x0C >>> CAN_SRC_SHIFT) &&& CAN_ZERO_MASK = RH
    ∧ chatId RH 0x0C &&& CAN_ZERO_MASK = 0x0C :=
  C2_chat_id_layout.1 RH (by decide) 0x0C (by decide)

/-- C5: a frame routed to command processing with at least 2 payload bytes is
read as target device payload[0] and value payload[1], and the local LED is
actuated with that value exactly when payload[0] is the local device; with
payload length 0 or 1 nothing is actuated; in particular the Mega never acts
on a command whose payload[0] is UNO. -/
theorem C5_command_filter (len : Nat) (data : List Nat) :
    (2 ≤ len →
        processLedCmd len data =
          if data.getD DEV_INDEX 0 = MY_DEVICE then some (data.getD VAL_INDEX 0)
          else none)
    ∧ (len < 2 → processLedCmd len data = none)
    ∧ (data.getD DEV_INDEX 0 = UNO → processLedCmd len data = none) := by
  unfold processLedCmd isMyLed
  refine ⟨fun h => ?_, fun h => ?_, fun h => ?_⟩
  · rw [if_neg (by simp only [VAL_INDEX]; omega : ¬ len < VAL_INDEX + 1)]
    dsimp only
    by_cases hdev : data.getD DEV_INDEX 0 = MY_DEVICE
    · simp [hdev]
    · simp [hdev]
  · rw [if_pos (by simp only [VAL_INDEX]; omega : len < VAL_INDEX + 1)]
    simp
  · by_cases hl : len < VAL_INDEX + 1
    · rw [if_pos hl]
      simp
    · rw [if_neg hl]
      dsimp only
      rw [h]
      simp [UNO, MY_DEVICE, MEGA]

/-- Witness for C5 at a length-2 payload addressed to the Mega, and the
UNO-addressed scenario payload. -/
theorem C5_command_filter_witness :
    (processLedCmd 2 [1, 1] =
      if ([1, 1].getD DEV_INDEX 0 = MY_DEVICE) then some ([1, 1].getD VAL_INDEX 0)
      else none)
    ∧ processLedCmd 1 [0] = none
    ∧ processLedCmd 2 [0, 1] = none :=
  ⟨(C5_command_filter 2 [1, 1]).1 (by decide),
   (C5_command_filter 1 [0]).2.1 (by decide),
   (C5_command_filter 2 [0, 1]).2.2 (by decide)⟩

/-- C7 as stated is false: the message length is stored in a byte before the
bound check, so a 256-byte text has stored length 0, passes the check, and
two frames are transmitted even though strlen exceeds 8. -/
theorem C7_counterexample :
    8 < (List.replicate 256 (65 : Nat)).length
    ∧ (sendCanMsg ⟨RH, 0x0C, 0⟩ (List.replicate 256 65)).2.length = 2 := by
  constructor
  · simp
  · decide

/-- C7 amended: the chat send path fails with the too-long error iff
strlen(msg) mod 256 exceeds 8 (the length is truncated to a byte first); a
message of exactly 8 bytes is sent and one of 9 bytes is rejected; on
rejection nothing is transmitted and the session state, lastId included, is
unchanged. -/
theorem C7_payload_too_long (s : Session) (msg : List Nat) :
    ((sendCanMsg s msg).2 = [] ↔ 8 < msg.length % 256)
    ∧ (8 < msg.length % 256 → sendCanMsg s msg = (s, []))
    ∧ (msg.length = 8 → 0 < (sendCanMsg s msg).2.length)
    ∧ (msg.length = 9 → sendCanMsg s msg = (s, [])) := by
  unfold sendCanMsg
  refine ⟨?_, fun h => ?_, fun h => ?_, fun h => ?_⟩
  · constructor
    · intro he
      by_contra hlen
      rw [if_neg ?_] at he
      · dsimp only at he
        split at he <;> simp at he
      · simp [CAN_MAX_CHAR_IN_MESSAGE]
        omega
    · intro hlen
      rw [if_pos (by simpa [CAN_MAX_CHAR_IN_MESSAGE] using hlen)]
  · rw [if_pos (by simpa [CAN_MAX_CHAR_IN_MESSAGE] using h)]
  · rw [if_neg (by simp [CAN_MAX_CHAR_IN_MESSAGE, h])]
    dsimp only
    split <;> simp
  · rw [if_pos (by simp [CAN_MAX_CHAR_IN_MESSAGE, h])]

/-- Witness for C7 at the two boundary lengths. -/
theorem C7_payload_too_long_witness :
    0 < (sendCanMsg ⟨RH, 0x0C, 0⟩ (List.replicate 8 65)).2.length
    ∧ sendCanMsg ⟨RH, 0x0C, 0⟩ (List.replicate 9 65) = (⟨RH, 0x0C, 0⟩, []) :=
  ⟨(C7_payload_too_long ⟨RH, 0x0C, 0⟩ (List.replicate 8 65)).2.2.1 (by decide),
   (C7_payload_too_long ⟨RH, 0x0C, 0⟩ (List.replicate 9 65)).2.2.2 (by decide)⟩

/-- C8: the LED-command send path always uses the fixed identifier 0x400,
every frame it emits carries that identifier, its data frame holds exactly
the two bytes [target device, LED value], and no chat identifier built from
a 5-bit sender and a byte-sized recipient value equals 0x400. -/
theorem C8_command_encoding :
    (∀ s : Session, ∀ v : Nat,
        (canLedCmdSender s v).2.getLast?
            = some ⟨CAN_DEVICE_CMD, 2, [DEVICE_TO_COMMAND, v % 256]⟩
        ∧ ∀ f ∈ (canLedCmdSender s v).2, f.id = CAN_DEVICE_CMD)
    ∧ (∀ i, i < 32 → ∀ r, r < 256 → chatId i r < CAN_DEVICE_CMD) := by
  constructor
  · intro s v
    unfold canLedCmdSender
    dsimp only
    constructor
    · split <;> rfl
    · intro f hf
      split at hf <;> simp at hf
      · rcases hf with hf | hf <;> simp [hf]
      · simp [hf]
  · exact chatId_lt

/-- Witness for C8 at a concrete session and value. -/
theorem C8_command_encoding_witness :
    ((canLedCmdSender ⟨RH, 0x0C, 0x4C⟩ 1).2.getLast?
        = some ⟨CAN_DEVICE_CMD, 2, [DEVICE_TO_COMMAND, 1 % 256]⟩)
    ∧ chatId RH 0x0C < CAN_DEVICE_CMD :=
  ⟨(C8_command_encoding.1 ⟨RH, 0x0C, 0x4C⟩ 1).1,
   C8_command_encoding.2 RH (by decide) 0x0C (by decide)⟩

/-- C9 names a real defect: selection 5 (DC) at the identity prompt is
re-prompted although the switch maps it to DC, because the accept loop
requires member < numMembers with numMembers = 5; and the recipient prompt
never reaches its invalid-selection branch because its guard
member > 0 or member < allMembers is a tautology, so out-of-range input 7
is ORed into the destination as bit 0x40 instead of being rejected. -/
theorem C9_setup_input_validation :
    setupUserAccepts 5 = false
    ∧ setupUserIdentity 5 = DC
    ∧ setupUserAccepts 4 = true
    ∧ (∀ me dest : Nat, ∀ member : Int,
        (setupTargetsStep me dest member).isRejected = false)
    ∧ setupTargetsStep WM 0 7 = .addMember 0x40 := by
  refine ⟨by decide, by decide, by decide, ?_, by decide⟩
  intro me dest member
  unfold setupTargetsStep
  split
  · rfl
  · split
    · rfl
    · rename_i h1 h2
      exfalso
      simp only [Bool.or_eq_true, decide_eq_true_eq, not_or] at h2
      omega

/-- C1: for every sender identity other than none, every 5-bit recipient set
and every non-empty text of at most 8 bytes, the data frame transmitted by
the chat send path decodes (under any local identity) as a valid chat whose
extracted sender is the original identity and whose payload bytes are the
original text. -/
theorem C1_chat_roundtrip (i r m L : Nat) (t : List Nat)
    (hi : i ∈ zeroMembers) (hr : r < 32) (ht : 0 < t.length) (hlen : t.length ≤ 8) :
    ∃ f : Frame,
      (sendCanMsg ⟨i, r, L⟩ t).2.getLast? = some f
      ∧ (isChat m f.id).ret = true
      ∧ (isChat m f.id).sender = i
      ∧ f.data = t ∧ f.len = t.length := by
  obtain ⟨hpos, hlt⟩ := mem_zeroMembers_bounds i hi
  obtain ⟨hsend, hrecv, hlt1024⟩ := chatId_fields i hlt r hr
  obtain ⟨hret, hsender, hfm⟩ := isChat_small m (chatId i r) hlt1024
  have h256 : t.length % 256 = t.length := Nat.mod_eq_of_lt (by omega)
  refine ⟨⟨chatId i r, t.length, t⟩, ?_, ?_, ?_, rfl, rfl⟩
  · unfold sendCanMsg
    rw [if_neg (by simp only [CAN_MAX_CHAR_IN_MESSAGE, h256]; omega)]
    dsimp only
    rw [h256, List.take_length]
    split <;> rfl
  · rw [hret, hsend]
    exact decide_eq_true hpos
  · rw [hsender, hsend]

/-- Witness for C1: sender RH, recipients 0x0C, text "hi", decoded at WM. -/
theorem C1_chat_roundtrip_witness :
    ∃ f : Frame,
      (sendCanMsg ⟨RH, 0x0C, 0⟩ [104, 105]).2.getLast? = some f
      ∧ (isChat WM f.id).ret = true
      ∧ (isChat WM f.id).sender = RH
      ∧ f.data = [104, 105] ∧ f.len = ([104, 105] : List Nat).length :=
  C1_chat_roundtrip RH 0x0C WM 0 [104, 105] (by decide) (by decide) (by decide)
    (by decide)

/-- C3: the decoded forMe flag is true iff the recipient field intersects the
local identity; and for the broadcast-minus-self set built for a member, any
other member decodes forMe true while that member decodes forMe false, for
every 5-bit sender field. -/
theorem C3_recipient_membership :
    (∀ me id : Nat, id < 2 ^ 32 →
        ((isChat me id).forMe = true ↔ 0 < (id &&& CAN_ZERO_MASK) &&& me))
    ∧ (∀ bi xi : Fin zeroMembers.length, ∀ a : Fin 32,
        (isChat (zeroMembers.get xi)
            (chatId a.val (broadcastMinusSelf (zeroMembers.get bi)))).forMe
          = decide (xi ≠ bi)) := by
  constructor
  · intro me id hid
    unfold isChat
    rw [Nat.mod_eq_of_lt hid]
    dsimp only
    exact decide_eq_true_iff
  · decide

/-- Witness for C3 at id 0x4C (recipients 0x0C) decoded at WM. -/
theorem C3_recipient_membership_witness :
    (isChat WM 0x4C).forMe = true ↔ 0 < (0x4C &&& CAN_ZERO_MASK) &&& WM :=
  C3_recipient_membership.1 WM 0x4C (by norm_num)

/-- C4: every identifier whose sender field is zero is classified as
not-a-chat, even when its kind bit is clear, and the frame is routed to the
command-processing path. -/
theorem C4_zero_sender_not_chat (m id len : Nat) (data : List Nat)
    (hid : id < 2 ^ 32) (h : (id >>> CAN_SRC_SHIFT) &&& CAN_ZERO_MASK = 0) :
    (isChat m id).ret = false
    ∧ processCanPacket m id len data = .cmdProcessed (processLedCmd len data) := by
  have hret : (isChat m id).ret = false := by
    unfold isChat
    rw [Nat.mod_eq_of_lt hid]
    dsimp only
    rw [h]
    simp
  refine ⟨hret, ?_⟩
  unfold processCanPacket
  dsimp only
  rw [hret]
  simp

/-- Witness for C4 at id 0x0C: kind bit clear, sender field zero. -/
theorem C4_zero_sender_not_chat_witness :
    (isChat WM 0x0C).ret = false
    ∧ processCanPacket WM 0x0C 2 [0, 1]
        = .cmdProcessed (processLedCmd 2 [0, 1]) :=
  C4_zero_sender_not_chat WM 0x0C 2 [0, 1] (by norm_num) (by decide)

/-- C10: the decoder does not validate that the sender field is a single
legal identity: any identifier with the kind bit clear and a nonzero sender
field is accepted as chat, and the raw composite field value is reported as
the sender. -/
theorem C10_sender_not_validated (m id : Nat) (hid : id < 2 ^ 32)
    (hkind : id &&& CAN_CHAT_MASK = 0)
    (hsrc : 0 < (id >>> CAN_SRC_SHIFT) &&& CAN_ZERO_MASK) :
    (isChat m id).ret = true
    ∧ (isChat m id).sender = (id >>> CAN_SRC_SHIFT) &&& CAN_ZERO_MASK := by
  have hck : (2 : Nat) ^ 10 = CAN_CHAT_MASK := by norm_num [CAN_CHAT_MASK]
  have h10 : id.testBit 10 = false := by
    have h2 := Nat.and_two_pow id 10
    rw [hck, hkind] at h2
    cases hb : id.testBit 10
    · rfl
    · rw [hb] at h2
      norm_num [CAN_CHAT_MASK] at h2
  have hxor : ((id ^^^ (2 ^ 32 - 1)) &&& CAN_CHAT_MASK) = CAN_CHAT_MASK := by
    have h3 := Nat.and_two_pow (id ^^^ (2 ^ 32 - 1)) 10
    rw [hck, Nat.testBit_xor, h10] at h3
    rw [show ((2 ^ 32 - 1 : Nat).testBit 10) = true from by decide] at h3
    simpa using h3
  unfold isChat
  rw [Nat.mod_eq_of_lt hid]
  dsimp only
  rw [hxor]
  refine ⟨?_, rfl⟩
  rw [decide_eq_true hsrc,
    decide_eq_true (show 0 < CAN_CHAT_MASK by norm_num [CAN_CHAT_MASK])]
  rfl

/-- Witness for C10 at id 0x60, whose sender field is the composite value
0x03 (JZ and RH bits both set). -/
theorem C10_sender_not_validated_witness :
    (isChat WM 0x60).ret = true
    ∧ (isChat WM 0x60).sender = (0x60 >>> CAN_SRC_SHIFT) &&& CAN_ZERO_MASK :=
  C10_sender_not_validated WM 0x60 (by norm_num) (by decide) (by decide)

lemma cmdId_mod16 : CAN_DEVICE_CMD % 2 ^ 16 = CAN_DEVICE_CMD := by decide

/-- Either a send transmits nothing and leaves the session unchanged (chat
text too long), or its frames are an optional priming frame (present exactly
when the id changed) followed by one data frame, lastId ends up at the
computed id, and me and destination are untouched. -/
lemma step_spec (s : Session) (op : Op) (hme : s.me < 32) (hdst : s.destination < 256) :
    step s op = (s, [])
    ∨ ∃ dlen ddata,
        (step s op).2 =
          (if s.lastId = opDataId s op then [] else [Frame.mk (opDataId s op) 0 []])
            ++ [Frame.mk (opDataId s op) dlen ddata]
        ∧ (step s op).1.lastId = opDataId s op
        ∧ (step s op).1.me = s.me
        ∧ (step s op).1.destination = s.destination := by
  cases op with
  | chat msg =>
    have hmod : chatId s.me s.destination % 2 ^ 16 = chatId s.me s.destination :=
      Nat.mod_eq_of_lt (lt_trans (chatId_lt s.me hme s.destination hdst) (by norm_num))
    simp only [step, opDataId]
    unfold sendCanMsg
    by_cases hlen : CAN_MAX_CHAR_IN_MESSAGE < msg.length % 256
    · left
      rw [if_pos hlen]
    · right
      rw [if_neg hlen]
      dsimp only
      refine ⟨msg.length % 256, msg.take (msg.length % 256), ?_⟩
      by_cases hid : s.lastId = chatId s.me s.destination
      · rw [if_neg (not_not_intro hid), if_pos hid]
        exact ⟨rfl, hid, rfl, rfl⟩
      · rw [if_pos hid, if_neg hid]
        exact ⟨rfl, hmod, rfl, rfl⟩
  | ledCmd v =>
    simp only [step, opDataId]
    unfold canLedCmdSender
    dsimp only
    right
    refine ⟨2, [DEVICE_TO_COMMAND % 256, v % 256], ?_⟩
    by_cases hid : s.lastId = CAN_DEVICE_CMD
    · rw [if_neg (not_not_intro hid), if_pos hid]
      exact ⟨rfl, hid, rfl, rfl⟩
    · rw [if_pos hid, if_neg hid]
      exact ⟨rfl, cmdId_mod16, rfl, rfl⟩

/-- A run that transmitted no frame at all left the session unchanged. -/
lemma runOps_frames_nil (ops : List Op) : ∀ s : Session,
    s.me < 32 → s.destination < 256 →
    (runOps s ops).2 = [] → runOps s ops = (s, []) := by
  induction ops with
  | nil => intro s _ _ _; rfl
  | cons op ops ih =>
    intro s hme hdst hnil
    simp only [runOps] at hnil ⊢
    obtain ⟨h1, h2⟩ := List.append_eq_nil.mp hnil
    rcases step_spec s op hme hdst with hL | ⟨dlen, ddata, hfr, _⟩
    · rw [hL] at h2 ⊢
      have := ih s hme hdst h2
      rw [this]
      simp
    · rw [hfr] at h1
      simp at h1

/-- After any run that transmitted at least one frame, lastId equals the
identifier of the most recently transmitted frame. -/
lemma runOps_lastId (ops : List Op) : ∀ s : Session,
    s.me < 32 → s.destination < 256 →
    ∀ f : Frame, (runOps s ops).2.getLast? = some f → (runOps s ops).1.lastId = f.id := by
  induction ops with
  | nil =>
    intro s _ _ f hf
    simp [runOps] at hf
  | cons op ops ih =>
    intro s hme hdst f hf
    simp only [runOps] at hf ⊢
    rcases step_spec s op hme hdst with hL | ⟨dlen, ddata, hfr, hlast, hm, hd⟩
    · rw [hL] at hf ⊢
      dsimp only at hf ⊢
      rw [List.nil_append] at hf
      exact ih s hme hdst f hf
    · have hme1 : (step s op).1.me < 32 := by rw [hm]; exact hme
      have hdst1 : (step s op).1.destination < 256 := by rw [hd]; exact hdst
      by_cases hnil : (runOps (step s op).1 ops).2 = []
      · have hstop := runOps_frames_nil ops (step s op).1 hme1 hdst1 hnil
        rw [hnil, List.append_nil] at hf
        rw [hfr, List.getLast?_concat] at hf
        rw [hstop]
        dsimp only
        rw [hlast, ← Option.some_inj.mp hf]
      · rw [List.getLast?_append_of_ne_nil _ hnil] at hf
        exact ih (step s op).1 hme1 hdst1 f hf

/-- C6: on every transmission, when the computed id differs from lastId
exactly one empty-payload priming frame with the new id precedes the data
frame and lastId becomes that id; when they are equal no priming frame is
sent; a rejected send transmits nothing and changes nothing; and after any
sequence of sends lastId equals the identifier of the most recently
transmitted frame. -/
theorem C6_priming_invariant (s : Session) (op : Op)
    (hme : s.me < 32) (hdst : s.destination < 256) :
    ((step s op).2 = [] → (step s op).1 = s)
    ∧ (0 < (step s op).2.length →
        ∃ dlen ddata,
          (step s op).2 =
            (if s.lastId = opDataId s op then [] else [Frame.mk (opDataId s op) 0 []])
              ++ [Frame.mk (opDataId s op) dlen ddata]
          ∧ (step s op).1.lastId = opDataId s op)
    ∧ (∀ ops : List Op, ∀ f : Frame,
        (runOps s ops).2.getLast? = some f → (runOps s ops).1.lastId = f.id) := by
  refine ⟨?_, ?_, fun ops f hf => runOps_lastId ops s hme hdst f hf⟩
  · intro h
    rcases step_spec s op hme hdst with hL | ⟨dlen, ddata, hfr, _⟩
    · rw [hL]
    · rw [hfr] at h
      simp at h
  · intro h
    rcases step_spec s op hme hdst with hL | ⟨dlen, ddata, hfr, hlast, _, _⟩
    · rw [hL] at h
      simp at h
    · exact ⟨dlen, ddata, hfr, hlast⟩

/-- Witness for C6: a chat send from a fresh session (lastId 0) emits the
priming frame followed by the data frame and updates lastId. -/
theorem C6_priming_invariant_witness :
    ∃ dlen ddata,
      (step ⟨RH, 0x0C, 0⟩ (Op.chat [104, 105])).2 =
        (if (⟨RH, 0x0C, 0⟩ : Session).lastId
            = opDataId ⟨RH, 0x0C, 0⟩ (Op.chat [104, 105]) then []
         else [Frame.mk (opDataId ⟨RH, 0x0C, 0⟩ (Op.chat [104, 105])) 0 []])
          ++ [Frame.mk (opDataId ⟨RH, 0x0C, 0⟩ (Op.chat [104, 105])) dlen ddata]
      ∧ (step ⟨RH, 0x0C, 0⟩ (Op.chat [104, 105])).1.lastId
          = opDataId ⟨RH, 0x0C, 0⟩ (Op.chat [104, 105]) :=
  (C6_priming_invariant ⟨RH, 0x0C, 0⟩ (Op.chat [104, 105])
    (by decide) (by decide)).2.1 (by decide)

end CanChat
